import Mathlib

/-!
Verification of the dialed-backend cache-aside resolver.

This file gives a shallow embedding of the two source files of the
repository, `src/app.py` and `src/email_service.py`, and proves the frozen
claims about them.

Modelling conventions:
- Python dictionaries coming from the upstream golf API are embedded as
  structures whose fields are `Option`-typed, mirroring `dict.get` returning
  `None` for absent keys.  An extra Boolean field `otherKeys` records whether
  the dictionary holds keys beyond the modelled ones, which is needed to
  translate Python truthiness tests (`if not d:`) faithfully: a dictionary is
  falsy exactly when it has no keys at all.
- A JSON document read from the cache may be `null`, hence the payload of a
  cache value is `Option`-wrapped (`none` standing for JSON null).
- `hole` is used as a dictionary key and as a sort key in
  `extract_green_centers`; the upstream data model declares it an `int`, so it
  is embedded as `Int`.  Latitude and longitude are only copied, never
  computed with, and are embedded as `Option Rat`.
- Stateful handler code is embedded as explicit state passing: each Flask
  handler becomes a pure function from (request data, cache table, environment
  configuration, the behaviour of the single upstream HTTP call) to an
  `Outcome` recording the HTTP response, the cache table after the call, and
  whether the upstream fetch and the notification e-mail happened.
- Exceptions that escape to the `db_error_handler` decorator are embedded as
  the `serverError` response constructor (HTTP 500).
-/

namespace Dialed

/-- Latitude/longitude pair as built by `extract_green_centers`; each component
comes from `coord.get(...)` in the source and is `none` when the key is
missing from the coordinate entry. -/
structure LatLng where
  latitude : Option Rat
  longitude : Option Rat
  deriving DecidableEq, Repr

/-- One element of the `coordinates` list of a raw coordinates payload.
Field access in the source is `coord.get(...)`, returning `None` for absent
keys, hence the `Option` types.  `hole` is declared an `int` by the upstream
data model and is used as a dictionary key and sort key, so it is embedded as
`Int`. -/
structure CoordEntry where
  hole : Int
  poi : Option Int
  location : Option Int
  latitude : Option Rat
  longitude : Option Rat
  deriving DecidableEq, Repr

/-- One output hole of `extract_green_centers`: the dictionary
`{holeNumber, frontOfGreen?, centerOfGreen?, backOfGreen?}`.  A `none` field
means the key is absent from the dictionary. -/
structure GreenHole where
  holeNumber : Int
  frontOfGreen : Option LatLng := none
  centerOfGreen : Option LatLng := none
  backOfGreen : Option LatLng := none
  deriving DecidableEq, Repr

/-- Return value of `extract_green_centers`: either the error dictionary
`{error, holes: []}` or the success dictionary `{courseID, holes, count}`. -/
inductive GreenResult where
  | error (msg : String) (holes : List GreenHole)
  | ok (courseID : String) (holes : List GreenHole) (count : Nat)
  deriving DecidableEq, Repr

/-- Raw coordinates payload (the dictionary handed to
`extract_green_centers`).  `otherKeys` records whether the dictionary has keys
beyond the modelled ones; it matters only for Python truthiness. -/
structure CoordPayload where
  courseID : Option String := none
  coordinates : Option (List CoordEntry) := none
  apiRequestsLeft : Option String := none
  otherKeys : Bool := false
  deriving DecidableEq, Repr

/-- Python truthiness of the payload dictionary: a dict is truthy iff it has
at least one key. -/
def CoordPayload.nonemptyDict (p : CoordPayload) : Bool :=
  p.courseID.isSome || p.coordinates.isSome || p.apiRequestsLeft.isSome || p.otherKeys

/-- Raw course-info payload (the dictionary handed to `extract_pars`). -/
structure InfoPayload where
  courseID : Option String := none
  parsMen : Option (List Int) := none
  parsWomen : Option (List Int) := none
  apiRequestsLeft : Option String := none
  otherKeys : Bool := false
  deriving DecidableEq, Repr

/-- Python truthiness of the info dictionary. -/
def InfoPayload.nonemptyDict (p : InfoPayload) : Bool :=
  p.courseID.isSome || p.parsMen.isSome || p.parsWomen.isSome ||
    p.apiRequestsLeft.isSome || p.otherKeys

/-- Return value of `extract_pars`: either the error dictionary `{error}` or
the success dictionary `{courseID, parsMen, parsWomen}`. -/
inductive ParsResult where
  | error (msg : String)
  | ok (courseID : String) (parsMen parsWomen : List Int)
  deriving DecidableEq, Repr

/-- The filter of the processing loop in `extract_green_centers`:
`coord.get('poi') == 1 and coord.get('location') in [1, 2, 3]`. -/
def keptEntry (c : CoordEntry) : Bool :=
  decide (c.poi = some 1) &&
    (decide (c.location = some 1) || decide (c.location = some 2) ||
      decide (c.location = some 3))

/-- The latitude/longitude dictionary built from a coordinate entry. -/
def entryLatLng (c : CoordEntry) : LatLng :=
  { latitude := c.latitude, longitude := c.longitude }

/-- The `if location == 1 / 2 / 3` chain of `extract_green_centers`, setting
the field of the hole dictionary selected by `location`. -/
def setLoc (g : GreenHole) (loc : Int) (c : CoordEntry) : GreenHole :=
  if loc = 1 then { g with frontOfGreen := some (entryLatLng c) }
  else if loc = 2 then { g with centerOfGreen := some (entryLatLng c) }
  else if loc = 3 then { g with backOfGreen := some (entryLatLng c) }
  else g

/-- Lookup in the association list embedding of the Python dict `holes_data`. -/
def lookupHole : List (Int × GreenHole) → Int → Option GreenHole
  | [], _ => none
  | (k, g) :: rest, n => if k = n then some g else lookupHole rest n

/-- The fresh hole dictionary `{'holeNumber': hole_number}`. -/
def newHole (n : Int) : GreenHole := { holeNumber := n }

/-- Update-or-insert on the association list embedding of `holes_data`: if the
key is present its entry is updated in place, otherwise a fresh entry is
appended at the end, matching Python dict insertion order. -/
def updAssoc : List (Int × GreenHole) → Int → (GreenHole → GreenHole) → List (Int × GreenHole)
  | [], n, f => [(n, f (newHole n))]
  | (k, g) :: rest, n, f =>
      if k = n then (k, f g) :: rest else (k, g) :: updAssoc rest n f

/-- One iteration of the processing loop of `extract_green_centers`: filter
the entry, create the hole dictionary if needed, and set the field selected by
`location`. -/
def processEntry (m : List (Int × GreenHole)) (c : CoordEntry) : List (Int × GreenHole) :=
  if keptEntry c then updAssoc m c.hole (fun g => setLoc g (c.location.getD 0) c) else m

/-- Embedding of `extract_green_centers` from `src/app.py`.  The argument is
the JSON document: `none` stands for `None` (or JSON null), `some p` for a
dictionary.  The guard mirrors
`if not coordinates_data or 'coordinates' not in coordinates_data`. -/
def extract_green_centers : Option CoordPayload → GreenResult
  | none => .error "Invalid course data format" []
  | some p =>
    if !p.nonemptyDict || p.coordinates.isNone then
      .error "Invalid course data format" []
    else
      let es := p.coordinates.getD []
      let m := es.foldl processEntry []
      let ks := (m.map Prod.fst).insertionSort (· ≤ ·)
      let holes_list := ks.filterMap (lookupHole m)
      .ok (p.courseID.getD "") holes_list holes_list.length

/-- Embedding of `extract_pars` from `src/app.py`.  The guard mirrors
`if not info_data`, which is taken both by `None` and by an empty
dictionary. -/
def extract_pars : Option InfoPayload → ParsResult
  | none => .error "Invalid course data format"
  | some p =>
    if !p.nonemptyDict then .error "Invalid course data format"
    else .ok (p.courseID.getD "") (p.parsMen.getD []) (p.parsWomen.getD [])

/-- Specification-side helper (from the claim wording, for comparison with the
source algorithm): the last entry of the payload that survives the filter for
hole `n` at location `loc` — last write wins. -/
def lastLoc (es : List CoordEntry) (n loc : Int) : Option CoordEntry :=
  (es.filter fun c =>
    keptEntry c && decide (c.hole = n) && decide (c.location = some loc)).getLast?

/-- Specification-side helper: the hole dictionary that the claim says hole
`n` must carry, with each green field taken from the last matching entry. -/
def buildHole (es : List CoordEntry) (n : Int) : GreenHole :=
  { holeNumber := n
    frontOfGreen := (lastLoc es n 1).map entryLatLng
    centerOfGreen := (lastLoc es n 2).map entryLatLng
    backOfGreen := (lastLoc es n 3).map entryLatLng }

/-- Whether some kept entry of the payload mentions hole `n`. -/
def holeMemB (es : List CoordEntry) (n : Int) : Bool :=
  es.any fun e => keptEntry e && decide (e.hole = n)

theorem extract_green_centers_some (p : CoordPayload) (es : List CoordEntry)
    (h : p.coordinates = some es) :
    extract_green_centers (some p) =
      .ok (p.courseID.getD "")
        (((es.foldl processEntry []).map Prod.fst).insertionSort (· ≤ ·)
          |>.filterMap (lookupHole (es.foldl processEntry [])))
        (((es.foldl processEntry []).map Prod.fst).insertionSort (· ≤ ·)
          |>.filterMap (lookupHole (es.foldl processEntry []))).length := by
  simp [extract_green_centers, CoordPayload.nonemptyDict, h]

theorem keptEntry_iff (c : CoordEntry) :
    keptEntry c = true ↔
      c.poi = some 1 ∧
        (c.location = some 1 ∨ c.location = some 2 ∨ c.location = some 3) := by
  simp [keptEntry]
  tauto

theorem lookupHole_updAssoc (m : List (Int × GreenHole)) (n : Int)
    (f : GreenHole → GreenHole) (k : Int) :
    lookupHole (updAssoc m n f) k =
      if k = n then some (f ((lookupHole m n).getD (newHole n))) else lookupHole m k := by
  induction m with
  | nil =>
    by_cases h : k = n
    · subst h; simp [updAssoc, lookupHole]
    · simp [updAssoc, lookupHole, h, Ne.symm h]
  | cons hd rest ih =>
    obtain ⟨k0, g⟩ := hd
    by_cases h1 : k0 = n
    · subst h1
      by_cases h2 : k = k0
      · subst h2; simp [updAssoc, lookupHole]
      · simp [updAssoc, lookupHole, h2, Ne.symm h2]
    · by_cases h2 : k0 = k
      · subst h2
        simp [updAssoc, lookupHole, h1]
      · simp [updAssoc, lookupHole, h1, h2, ih]

theorem map_fst_updAssoc (m : List (Int × GreenHole)) (n : Int) (f : GreenHole → GreenHole) :
    (updAssoc m n f).map Prod.fst =
      if n ∈ m.map Prod.fst then m.map Prod.fst else m.map Prod.fst ++ [n] := by
  induction m with
  | nil => simp [updAssoc]
  | cons hd rest ih =>
    obtain ⟨k0, g⟩ := hd
    by_cases h1 : k0 = n
    · subst h1; simp [updAssoc]
    · simp only [updAssoc, if_neg h1, List.map_cons, ih, List.mem_cons]
      have hne : ¬ n = k0 := fun h => h1 h.symm
      simp only [hne, false_or]
      split_ifs with h2 <;> simp

theorem holeMemB_append_singleton (es : List CoordEntry) (c : CoordEntry) (n : Int) :
    holeMemB (es ++ [c]) n = (holeMemB es n || (keptEntry c && decide (c.hole = n))) := by
  simp [holeMemB]

theorem lastLoc_append_singleton (es : List CoordEntry) (c : CoordEntry) (n loc : Int) :
    lastLoc (es ++ [c]) n loc =
      if keptEntry c && decide (c.hole = n) && decide (c.location = some loc) then some c
      else lastLoc es n loc := by
  simp only [lastLoc, List.filter_append]
  by_cases h : (keptEntry c && decide (c.hole = n) && decide (c.location = some loc)) = true
  · simp [List.filter, h]
  · simp [List.filter, h]

theorem buildHole_append_irrelevant (es : List CoordEntry) (c : CoordEntry) (n : Int)
    (h : (keptEntry c && decide (c.hole = n)) = false) :
    buildHole (es ++ [c]) n = buildHole es n := by
  have h1 : ∀ loc : Int, lastLoc (es ++ [c]) n loc = lastLoc es n loc := by
    intro loc
    rw [lastLoc_append_singleton]
    simp [h]
  simp [buildHole, h1]

theorem buildHole_eq_newHole (es : List CoordEntry) (n : Int) (h : holeMemB es n = false) :
    buildHole es n = newHole n := by
  have hfil : ∀ loc : Int, lastLoc es n loc = none := by
    intro loc
    have hmem : ∀ e ∈ es, ¬ (keptEntry e && decide (e.hole = n) &&
        decide (e.location = some loc)) = true := by
      intro e he hcontra
      have : holeMemB es n = true := by
        simp only [holeMemB, List.any_eq_true]
        refine ⟨e, he, ?_⟩
        simp only [Bool.and_eq_true] at hcontra
        simp [hcontra.1.1, hcontra.1.2]
      rw [this] at h
      exact Bool.noConfusion h
    rw [lastLoc, List.filter_eq_nil_iff.mpr hmem]
    rfl
  simp [buildHole, newHole, hfil]

theorem buildHole_append_relevant (es : List CoordEntry) (c : CoordEntry)
    (hk : keptEntry c = true) (loc : Int) (hloc : c.location = some loc) :
    buildHole (es ++ [c]) c.hole = setLoc (buildHole es c.hole) loc c := by
  obtain ⟨hpoi, hl⟩ := (keptEntry_iff c).mp hk
  have hself : ∀ i : Int, lastLoc (es ++ [c]) c.hole i =
      if loc = i then some c else lastLoc es c.hole i := by
    intro i
    rw [lastLoc_append_singleton]
    by_cases h : loc = i
    · subst h; simp [hk, hloc]
    · simp [hk, hloc, h]
  have hloc123 : loc = 1 ∨ loc = 2 ∨ loc = 3 := by
    rw [hloc] at hl
    rcases hl with h | h | h
    · exact Or.inl (Option.some_inj.mp h)
    · exact Or.inr (Or.inl (Option.some_inj.mp h))
    · exact Or.inr (Or.inr (Option.some_inj.mp h))
  rcases hloc123 with h | h | h <;> subst h <;>
    simp [buildHole, setLoc, hself]

theorem kept_location_getD (c : CoordEntry) (hk : keptEntry c = true) :
    c.location = some (c.location.getD 0) := by
  obtain ⟨-, hl⟩ := (keptEntry_iff c).mp hk
  rcases hl with h | h | h <;> rw [h] <;> rfl

theorem lookupHole_foldl (es : List CoordEntry) (n : Int) :
    lookupHole (es.foldl processEntry []) n =
      if holeMemB es n then some (buildHole es n) else none := by
  induction es using List.reverseRecOn generalizing n with
  | nil => simp [holeMemB, lookupHole]
  | append_singleton es c ih =>
    rw [List.foldl_append]
    simp only [List.foldl_cons, List.foldl_nil]
    by_cases hk : keptEntry c = true
    · have hloc := kept_location_getD c hk
      rw [show processEntry (es.foldl processEntry []) c =
            updAssoc (es.foldl processEntry []) c.hole
              (fun g => setLoc g (c.location.getD 0) c) from by
            simp [processEntry, hk]]
      rw [lookupHole_updAssoc]
      by_cases hn : n = c.hole
      · have hprev : (lookupHole (es.foldl processEntry []) c.hole).getD (newHole c.hole) =
            buildHole es c.hole := by
          rw [ih]
          by_cases hm : holeMemB es c.hole = true
          · simp [hm]
          · rw [Bool.not_eq_true] at hm
            simp [hm, buildHole_eq_newHole es c.hole hm]
        rw [if_pos hn, hprev]
        have hmem2 : holeMemB (es ++ [c]) n = true := by
          rw [holeMemB_append_singleton]
          simp [hk, hn]
        rw [if_pos hmem2, hn,
          buildHole_append_relevant es c hk (c.location.getD 0) hloc]
      · rw [if_neg hn, ih, holeMemB_append_singleton]
        have hd : decide (c.hole = n) = false := by
          simp only [decide_eq_false_iff_not]
          intro hcontra
          exact hn hcontra.symm
        rw [hd, Bool.and_false, Bool.or_false,
          buildHole_append_irrelevant es c n (by rw [hd, Bool.and_false])]
    · rw [Bool.not_eq_true] at hk
      rw [show processEntry (es.foldl processEntry []) c = es.foldl processEntry [] from by
            simp [processEntry, hk]]
      rw [ih, holeMemB_append_singleton, hk, Bool.false_and, Bool.or_false,
        buildHole_append_irrelevant es c n (by rw [hk, Bool.false_and])]

theorem processEntry_kept (es : List CoordEntry) (c : CoordEntry) (hk : keptEntry c = true) :
    processEntry (es.foldl processEntry []) c =
      updAssoc (es.foldl processEntry []) c.hole (fun g => setLoc g (c.location.getD 0) c) := by
  simp [processEntry, hk]

theorem mem_map_fst_foldl (es : List CoordEntry) (n : Int) :
    n ∈ (es.foldl processEntry []).map Prod.fst ↔ holeMemB es n = true := by
  induction es using List.reverseRecOn generalizing n with
  | nil => simp [holeMemB]
  | append_singleton es c ih =>
    rw [List.foldl_append]
    simp only [List.foldl_cons, List.foldl_nil]
    rw [holeMemB_append_singleton]
    by_cases hk : keptEntry c = true
    · rw [processEntry_kept es c hk, map_fst_updAssoc]
      by_cases hc : c.hole ∈ (es.foldl processEntry []).map Prod.fst
      · rw [if_pos hc, ih, hk, Bool.true_and, Bool.or_eq_true, decide_eq_true_eq]
        constructor
        · exact Or.inl
        · rintro (h | h)
          · exact h
          · rw [← h]
            exact (ih c.hole).mp hc
      · rw [if_neg hc]
        rw [List.mem_append, ih, hk, Bool.true_and, Bool.or_eq_true, decide_eq_true_eq,
          List.mem_singleton]
        constructor
        · rintro (h | h)
          · exact Or.inl h
          · exact Or.inr h.symm
        · rintro (h | h)
          · exact Or.inl h
          · exact Or.inr h.symm
    · rw [Bool.not_eq_true] at hk
      rw [show processEntry (es.foldl processEntry []) c = es.foldl processEntry [] from by
            simp [processEntry, hk]]
      rw [ih, hk, Bool.false_and, Bool.or_false]

theorem nodup_map_fst_foldl (es : List CoordEntry) :
    ((es.foldl processEntry []).map Prod.fst).Nodup := by
  induction es using List.reverseRecOn with
  | nil => simp
  | append_singleton es c ih =>
    rw [List.foldl_append]
    simp only [List.foldl_cons, List.foldl_nil]
    by_cases hk : keptEntry c = true
    · rw [processEntry_kept es c hk, map_fst_updAssoc]
      split_ifs with hc
      · exact ih
      · rw [List.nodup_append]
        refine ⟨ih, List.nodup_singleton _, ?_⟩
        intro a ha hb
        rw [List.mem_singleton] at hb
        exact hc (hb ▸ ha)
    · rw [Bool.not_eq_true] at hk
      rw [show processEntry (es.foldl processEntry []) c = es.foldl processEntry [] from by
            simp [processEntry, hk]]
      exact ih

theorem filterMap_eq_map_of_some {α β : Type} (l : List α) (f : α → Option β) (g : α → β)
    (h : ∀ x ∈ l, f x = some (g x)) : l.filterMap f = l.map g := by
  induction l with
  | nil => rfl
  | cons a l ih =>
    rw [List.filterMap_cons_some (h a (List.mem_cons_self a l)), List.map_cons,
      ih fun x hx => h x (List.mem_cons_of_mem a hx)]

/-- C2: for every raw coordinates payload containing a `coordinates` list,
`extract_green_centers` keeps exactly the entries with `poi == 1` and
`location` in `{1,2,3}`, groups them by hole, fills the three green fields
from locations 1/2/3 with the last entry winning on duplicate hole+location,
emits the holes sorted strictly ascending by hole number, and sets `count` to
the number of emitted holes. -/
theorem C2_green_centers_grouping (p : CoordPayload) (es : List CoordEntry)
    (h : p.coordinates = some es) :
    ∃ hs : List GreenHole,
      extract_green_centers (some p) = .ok (p.courseID.getD "") hs hs.length ∧
      (hs.map GreenHole.holeNumber).Sorted (· < ·) ∧
      (∀ n : Int, n ∈ hs.map GreenHole.holeNumber ↔
        ∃ e ∈ es, keptEntry e = true ∧ e.hole = n) ∧
      (∀ g ∈ hs, g = buildHole es g.holeNumber) := by
  classical
  set m := es.foldl processEntry [] with hm
  set ks := (m.map Prod.fst).insertionSort (· ≤ ·) with hks
  have hperm : List.Perm ks (m.map Prod.fst) := List.perm_insertionSort _ _
  have hmemks : ∀ k, k ∈ ks ↔ holeMemB es k = true := by
    intro k
    rw [hperm.mem_iff]
    exact mem_map_fst_foldl es k
  have hlook : ∀ k ∈ ks, lookupHole m k = some (buildHole es k) := by
    intro k hk
    rw [hm, lookupHole_foldl, if_pos ((hmemks k).mp hk)]
  have hfm : ks.filterMap (lookupHole m) = ks.map (buildHole es) :=
    filterMap_eq_map_of_some _ _ _ hlook
  have hmapid : (ks.map (buildHole es)).map GreenHole.holeNumber = ks := by
    rw [List.map_map]
    have hcomp : (GreenHole.holeNumber ∘ buildHole es) = id := rfl
    rw [hcomp, List.map_id]
  have hnd : ks.Nodup := (hperm.nodup_iff).mpr (nodup_map_fst_foldl es)
  have hsorted : ks.Sorted (· ≤ ·) := List.sorted_insertionSort _ _
  refine ⟨ks.map (buildHole es), ?_, ?_, ?_, ?_⟩
  · rw [extract_green_centers_some p es h, hfm]
  · rw [hmapid]
    exact (hsorted.and hnd).imp fun hab => lt_of_le_of_ne hab.1 hab.2
  · intro n
    rw [hmapid, hmemks n, holeMemB, List.any_eq_true]
    constructor
    · rintro ⟨e, he, hkept⟩
      rw [Bool.and_eq_true, decide_eq_true_eq] at hkept
      exact ⟨e, he, hkept.1, hkept.2⟩
    · rintro ⟨e, he, h1, h2⟩
      exact ⟨e, he, by rw [Bool.and_eq_true, decide_eq_true_eq]; exact ⟨h1, h2⟩⟩
  · intro g hg
    obtain ⟨k, hk, rfl⟩ := List.mem_map.mp hg
    rfl

def c2entry1 : CoordEntry :=
  { hole := 2, poi := some 1, location := some 2, latitude := some 10, longitude := some 20 }

def c2entry2 : CoordEntry :=
  { hole := 1, poi := some 1, location := some 1, latitude := some 30, longitude := some 40 }

def c2payload : CoordPayload :=
  { courseID := some "X1", coordinates := some [c2entry1, c2entry2] }

/-- Witness for C2 at a concrete two-entry payload. -/
theorem C2_green_centers_grouping_witness :
    c2payload.coordinates = some [c2entry1, c2entry2] ∧
    ∃ hs : List GreenHole,
      extract_green_centers (some c2payload) = .ok (c2payload.courseID.getD "") hs hs.length ∧
      (hs.map GreenHole.holeNumber).Sorted (· < ·) ∧
      (∀ n : Int, n ∈ hs.map GreenHole.holeNumber ↔
        ∃ e ∈ [c2entry1, c2entry2], keptEntry e = true ∧ e.hole = n) ∧
      (∀ g ∈ hs, g = buildHole [c2entry1, c2entry2] g.holeNumber) :=
  ⟨rfl, C2_green_centers_grouping c2payload [c2entry1, c2entry2] rfl⟩

/-- C7: a payload lacking the `coordinates` key makes `extract_green_centers`
return the error dictionary `{error, holes: []}` as a value (the embedding is
a total function, so no exception is possible). -/
theorem C7_missing_coordinates_error (p : CoordPayload) (h : p.coordinates = none) :
    extract_green_centers (some p) = .error "Invalid course data format" [] := by
  simp [extract_green_centers, h]

/-- Witness for C7 at the empty dictionary. -/
theorem C7_missing_coordinates_error_witness :
    (({} : CoordPayload).coordinates = none) ∧
    extract_green_centers (some {}) = .error "Invalid course data format" [] :=
  ⟨rfl, C7_missing_coordinates_error {} rfl⟩

/-- Counterexample for C4: the empty dictionary is falsy in Python, so
`extract_pars({})` takes the `if not info_data` branch and returns the error
object, not the defaulted success object the claim promises. -/
theorem C4_extract_pars_counterexample :
    extract_pars (some {}) = .error "Invalid course data format" ∧
    extract_pars (some {}) ≠ .ok "" [] [] :=
  ⟨rfl, by decide⟩

/-- C4 amended: `extract_pars` of an absent payload returns the error object,
and so does `extract_pars` of the empty dictionary, because the guard
`if not info_data` is also taken by the falsy empty dictionary; the per-field
defaults apply exactly to nonempty dictionaries missing those fields. -/
theorem C4_extract_pars_amended :
    extract_pars none = .error "Invalid course data format" ∧
    extract_pars (some {}) = .error "Invalid course data format" ∧
    ∀ p : InfoPayload, p.nonemptyDict = true →
      extract_pars (some p) =
        .ok (p.courseID.getD "") (p.parsMen.getD []) (p.parsWomen.getD []) := by
  refine ⟨rfl, rfl, ?_⟩
  intro p hp
  simp [extract_pars, hp]

/-- Witness for the amended C4 at a dictionary holding only `parsMen`. -/
theorem C4_extract_pars_amended_witness :
    ({ parsMen := some [4, 5] } : InfoPayload).nonemptyDict = true ∧
    extract_pars (some { parsMen := some [4, 5] }) = .ok "" [4, 5] [] :=
  ⟨rfl, C4_extract_pars_amended.2.2 { parsMen := some [4, 5] } rfl⟩

/-- C9: a payload whose `coordinates` list is present but contributes no entry
passing the `poi == 1` and `location in {1,2,3}` filter yields the success
shape with an empty holes list and count 0; the error shape occurs exactly
when the document is `None` or the `coordinates` key is absent. -/
theorem C9_empty_result_shape :
    (∀ (p : CoordPayload) (es : List CoordEntry), p.coordinates = some es →
      (∀ e ∈ es, keptEntry e = false) →
      extract_green_centers (some p) = .ok (p.courseID.getD "") [] 0) ∧
    (∀ od : Option CoordPayload,
      (∃ msg hs, extract_green_centers od = .error msg hs) ↔
        (od = none ∨ ∃ p, od = some p ∧ p.coordinates = none)) := by
  have hfold : ∀ (es : List CoordEntry) (m : List (Int × GreenHole)),
      (∀ e ∈ es, keptEntry e = false) → es.foldl processEntry m = m := by
    intro es
    induction es with
    | nil => intro m _; rfl
    | cons a es ih =>
      intro m hall
      rw [List.foldl_cons, show processEntry m a = m from by
        simp [processEntry, hall a (List.mem_cons_self a es)]]
      exact ih m fun e he => hall e (List.mem_cons_of_mem a he)
  constructor
  · intro p es hes hall
    rw [extract_green_centers_some p es hes, hfold es [] hall]
    rfl
  · intro od
    match od with
    | none =>
      constructor
      · intro _
        exact Or.inl rfl
      · intro _
        exact ⟨"Invalid course data format", [], rfl⟩
    | some p =>
      constructor
      · rintro ⟨msg, hs, herr⟩
        refine Or.inr ⟨p, rfl, ?_⟩
        by_contra hcn
        obtain ⟨es, hes⟩ := Option.ne_none_iff_exists'.mp hcn
        rw [extract_green_centers_some p es hes] at herr
        exact GreenResult.noConfusion herr
      · rintro (h | ⟨p', hp', hc⟩)
        · exact Option.noConfusion h
        · injection hp' with hpe
          subst hpe
          exact ⟨"Invalid course data format", [], by simp [extract_green_centers, hc]⟩

/-- Witness for C9: an empty coordinates list and the `None` document. -/
theorem C9_empty_result_shape_witness :
    extract_green_centers (some { coordinates := some [] }) = .ok "" [] 0 ∧
    ((∃ msg hs, extract_green_centers none = .error msg hs) ↔
      ((none : Option CoordPayload) = none ∨
        ∃ p, (none : Option CoordPayload) = some p ∧ p.coordinates = none)) :=
  ⟨C9_empty_result_shape.1 { coordinates := some [] } [] rfl (by simp),
   C9_empty_result_shape.2 none⟩

/-- A value stored in the `value` column of a cache table.  The source accepts
both an already-structured value and a serialized-JSON string on read
(`isinstance(row['value'], str)` followed by `json.loads`); a stored string
may also fail to parse as JSON. -/
inductive CacheVal (α : Type) where
  | jsonStr (v : α)
  | badStr (s : String)
  | structured (v : α)
  deriving DecidableEq, Repr

/-- The decode step of the cache-hit path: `json.loads` on strings, identity
on structured values; `none` models the `json.JSONDecodeError` branch, which
the handlers turn into `raise Exception("Invalid JSON data in cache")`. -/
def decodeVal {α : Type} : CacheVal α → Option α
  | .jsonStr v => some v
  | .badStr _ => none
  | .structured v => some v

/-- One row of a cache table: the `value` column plus the `inserted_at`
timestamp column. -/
structure CacheRow (α : Type) where
  value : CacheVal α
  inserted_at : Nat
  deriving DecidableEq, Repr

/-- A cache table (`course_poi_cache` or `course_info_cache`) as a map from
the `key` column to the row. -/
def Table (α : Type) := String → Option (CacheRow α)

/-- The SQL statement of `store_cached_course_poi`:
`INSERT INTO course_poi_cache (key, value) VALUES (%s, %s) ON CONFLICT (key)
DO UPDATE SET value = %s, inserted_at = NOW()`.  On conflict both columns are
written, `inserted_at` getting the statement execution time `now`; a fresh
insert leaves `inserted_at` to the column default `freshTs`. -/
def upsertTouch {α : Type} (t : Table α) (key : String) (v : CacheVal α)
    (now freshTs : Nat) : Table α :=
  fun k =>
    if k = key then
      some (match t key with
        | some _ => { value := v, inserted_at := now }
        | none => { value := v, inserted_at := freshTs })
    else t k

/-- The SQL statement of the resolver handlers:
`INSERT INTO ... (key, value) VALUES (%s, %s) ON CONFLICT (key) DO UPDATE SET
value = %s`.  On conflict only the `value` column is written and the existing
`inserted_at` is kept; a fresh insert takes the column default `freshTs`. -/
def upsertValueOnly {α : Type} (t : Table α) (key : String) (v : CacheVal α)
    (freshTs : Nat) : Table α :=
  fun k =>
    if k = key then
      some (match t key with
        | some row => { value := v, inserted_at := row.inserted_at }
        | none => { value := v, inserted_at := freshTs })
    else t k

/-- Response of the `/cache` POST endpoint. -/
inductive StoreResponse where
  | badRequest
  | created (key : String)
  deriving DecidableEq, Repr

/-- The `json.dumps` normalization in `store_cached_course_poi`: a dict or
list value is serialized, any other value is stored as-is. -/
def serializeForStore {α : Type} : CacheVal α → CacheVal α
  | .structured v => .jsonStr v
  | v => v

/-- Embedding of the `store_cached_course_poi` handler (POST `/cache`).
`body` is `none` when the request JSON is missing the `key` or `value` field,
otherwise the pair of the two fields; `now` is the time `NOW()` evaluates to,
`freshTs` the `inserted_at` column default for fresh inserts. -/
def store_cached_course_poi {α : Type} (t : Table α)
    (body : Option (String × CacheVal α)) (now freshTs : Nat) :
    StoreResponse × Table α :=
  match body with
  | none => (.badRequest, t)
  | some (key, value) =>
    (.created key, upsertTouch t key (serializeForStore value) now freshTs)

/-- Python truthiness of an optional environment string: `os.getenv` returns
`None` for an unset variable, and an empty string is falsy as well. -/
def truthyStr : Option String → Bool
  | none => false
  | some s => !s.isEmpty

/-- The whitespace cleaning applied to the mail password,
`''.join(gmail_password.split())`. -/
def stripWs (s : String) : String :=
  String.mk (s.toList.filter fun ch => !ch.isWhitespace)

/-- Mail configuration and transport behaviour seen by `send_course_email`:
the three environment variables plus whether the SMTP connect/login/send
inside the `try` block raises. -/
structure EmailEnv where
  gmail_user : Option String := none
  gmail_password : Option String := none
  recipient_email : Option String := none
  smtpFails : Bool := false
  deriving DecidableEq, Repr

/-- The `if gmail_password:` guarded cleaning step of `send_course_email`. -/
def cleanedPassword (pw : Option String) : Option String :=
  if truthyStr pw then pw.map stripWs else pw

/-- The configuration validation of `send_course_email`:
`if not gmail_user or not gmail_password or not recipient_email`. -/
def emailConfigOk (env : EmailEnv) : Bool :=
  truthyStr env.gmail_user && truthyStr (cleanedPassword env.gmail_password) &&
    truthyStr env.recipient_email

/-- Embedding of `send_course_email` from `src/email_service.py`.  The
function returns `False` on missing configuration and on any exception inside
the `try` block (message building and SMTP transport), `True` otherwise; it
never raises.  The message-building arguments do not influence the result. -/
def send_course_email {δ : Type} (env : EmailEnv) (course_id : String)
    (course_name : String) (course_data : δ) (data_type : String)
    (api_requests_left : Option String) : Bool :=
  if !emailConfigOk env then false
  else if env.smtpFails then false
  else true

/-- One element of the static `COURSES` list (`simplified_courses.json`). -/
structure Course where
  courseId : Option String := none
  courseName : Option String := none
  deriving DecidableEq, Repr

/-- The course-name resolution loop of the handlers: first course whose
`courseId` equals the requested id wins, defaulting to `"Unknown Course"`. -/
def lookupCourseName (courses : List Course) (course_id : String) : String :=
  match courses.find? fun c => c.courseId == some course_id with
  | some c => c.courseName.getD "Unknown Course"
  | none => "Unknown Course"

/-- Behaviour of the single `requests.get` call a handler may make: either an
HTTP response (with status code, parsed JSON body used on status 200, and the
raw text used otherwise) or a `requests.exceptions.RequestException`. -/
inductive UpstreamResult (β : Type) where
  | resp (status_code : Nat) (jsonBody : β) (text : String)
  | exn (msg : String)
  deriving DecidableEq, Repr

/-- The JSON response a handler produces, one constructor per `return` site:
`ok` is `jsonify(processed_data)` (HTTP 200), `serverError` is an exception
caught by `db_error_handler` (HTTP 500), `tokenError` is the missing
`GOLF_API_TOKEN` branch (HTTP 500), `apiFailed` is the non-200 upstream
propagation (upstream status), `fetchFailed` is the `RequestException`
branch (HTTP 500). -/
inductive ApiResponse (δ : Type) where
  | ok (data : δ)
  | serverError (details : String)
  | tokenError
  | apiFailed (status_code : Nat) (details : String)
  | fetchFailed (details : String)
  deriving DecidableEq, Repr

/-- The HTTP status code attached to each response. -/
def ApiResponse.status {δ : Type} : ApiResponse δ → Nat
  | .ok _ => 200
  | .serverError _ => 500
  | .tokenError => 500
  | .apiFailed s _ => s
  | .fetchFailed _ => 500

/-- Result of one handler invocation: the response, the cache table after the
call, whether `requests.get` was executed, whether `send_course_email` was
invoked, and what it returned (`false` when it was not invoked). -/
structure Outcome (δ α : Type) where
  response : ApiResponse δ
  cache : Table α
  fetched : Bool
  notified : Bool
  emailResult : Bool

/-- A cached coordinates JSON document: `none` is JSON null, `some p` an
object. -/
abbrev CoordJson := Option CoordPayload

/-- A cached course-info JSON document. -/
abbrev InfoJson := Option InfoPayload

/-- Embedding of the `get_course_coordinates` handler (GET
`/coordinates/<course_id>`): check the `course_poi_cache` row for key
`coordinates_<course_id>`; on a hit decode and normalize; on a miss require a
truthy `GOLF_API_TOKEN`, perform the upstream fetch, and on status 200 write
the serialized payload to the cache, send the notification e-mail, and return
the normalized payload; propagate a non-200 status with the response text;
map a transport exception to a 500. -/
def get_course_coordinates (course_id : String) (cache : Table CoordJson)
    (golf_api_token : Option String) (upstream : UpstreamResult CoordPayload)
    (env : EmailEnv) (courses : List Course) (freshTs : Nat) :
    Outcome GreenResult CoordJson :=
  let cache_key := "coordinates_" ++ course_id
  match cache cache_key with
  | some row =>
    match decodeVal row.value with
    | some coordinates_data =>
      { response := .ok (extract_green_centers coordinates_data), cache := cache,
        fetched := false, notified := false, emailResult := false }
    | none =>
      { response := .serverError "Invalid JSON data in cache", cache := cache,
        fetched := false, notified := false, emailResult := false }
  | none =>
    if !truthyStr golf_api_token then
      { response := .tokenError, cache := cache, fetched := false, notified := false,
        emailResult := false }
    else
      match upstream with
      | .resp status_code coordinates_data text =>
        if status_code = 200 then
          let api_requests_left := coordinates_data.apiRequestsLeft
          let cache2 := upsertValueOnly cache cache_key (.jsonStr (some coordinates_data)) freshTs
          let course_name := lookupCourseName courses course_id
          let emailResult :=
            send_course_email env course_id course_name coordinates_data "POI" api_requests_left
          { response := .ok (extract_green_centers (some coordinates_data)), cache := cache2,
            fetched := true, notified := true, emailResult := emailResult }
        else
          { response := .apiFailed status_code text, cache := cache, fetched := true,
            notified := false, emailResult := false }
      | .exn msg =>
        { response := .fetchFailed msg, cache := cache, fetched := true,
          notified := false, emailResult := false }

/-- Embedding of the `get_course_info` handler (GET `/info/<course_id>`).
Identical cache-aside structure over `course_info_cache` with key
`info_<course_id>` and `extract_pars`, except that the source has no
missing-token guard: the fetch is attempted whatever `GOLF_API_TOKEN` is. -/
def get_course_info (course_id : String) (cache : Table InfoJson)
    (golf_api_token : Option String) (upstream : UpstreamResult InfoPayload)
    (env : EmailEnv) (courses : List Course) (freshTs : Nat) :
    Outcome ParsResult InfoJson :=
  let cache_key := "info_" ++ course_id
  match cache cache_key with
  | some row =>
    match decodeVal row.value with
    | some info_data =>
      { response := .ok (extract_pars info_data), cache := cache,
        fetched := false, notified := false, emailResult := false }
    | none =>
      { response := .serverError "Invalid JSON data in cache", cache := cache,
        fetched := false, notified := false, emailResult := false }
  | none =>
    match upstream with
    | .resp status_code info_data text =>
      if status_code = 200 then
        let api_requests_left := info_data.apiRequestsLeft
        let cache2 := upsertValueOnly cache cache_key (.jsonStr (some info_data)) freshTs
        let course_name := lookupCourseName courses course_id
        let emailResult :=
          send_course_email env course_id course_name info_data "Info" api_requests_left
        { response := .ok (extract_pars (some info_data)), cache := cache2,
          fetched := true, notified := true, emailResult := emailResult }
      else
        { response := .apiFailed status_code text, cache := cache, fetched := true,
          notified := false, emailResult := false }
    | .exn msg =>
      { response := .fetchFailed msg, cache := cache, fetched := true,
        notified := false, emailResult := false }

/-- The empty `course_poi_cache` table. -/
def emptyCoordTable : Table CoordJson := fun _ => none

/-- The empty `course_info_cache` table. -/
def emptyInfoTable : Table InfoJson := fun _ => none

theorem coords_hit (course_id : String) (cache : Table CoordJson) (tok : Option String)
    (up : UpstreamResult CoordPayload) (env : EmailEnv) (courses : List Course)
    (freshTs : Nat) (row : CacheRow CoordJson) (j : CoordJson)
    (hrow : cache ("coordinates_" ++ course_id) = some row)
    (hdec : decodeVal row.value = some j) :
    get_course_coordinates course_id cache tok up env courses freshTs =
      { response := .ok (extract_green_centers j), cache := cache, fetched := false,
        notified := false, emailResult := false } := by
  simp only [get_course_coordinates, hrow, hdec]

theorem info_hit (course_id : String) (cache : Table InfoJson) (tok : Option String)
    (up : UpstreamResult InfoPayload) (env : EmailEnv) (courses : List Course)
    (freshTs : Nat) (row : CacheRow InfoJson) (j : InfoJson)
    (hrow : cache ("info_" ++ course_id) = some row)
    (hdec : decodeVal row.value = some j) :
    get_course_info course_id cache tok up env courses freshTs =
      { response := .ok (extract_pars j), cache := cache, fetched := false,
        notified := false, emailResult := false } := by
  simp only [get_course_info, hrow, hdec]

/-- C1: for each kind, when a first resolve call populated the cache entry
(miss, then upstream status 200), a second resolve call performs no upstream
fetch and its response is exactly the normalization of the raw payload that
was stored, whatever the token, upstream behaviour and environment of the
second call are. -/
theorem C1_resolve_idempotent :
    (∀ (course_id : String) (cache : Table CoordJson) (tok : Option String)
       (body : CoordPayload) (text : String) (env : EmailEnv) (courses : List Course)
       (freshTs : Nat) (tok2 : Option String) (up2 : UpstreamResult CoordPayload)
       (env2 : EmailEnv) (courses2 : List Course) (freshTs2 : Nat),
       cache ("coordinates_" ++ course_id) = none →
       truthyStr tok = true →
       (get_course_coordinates course_id cache tok (.resp 200 body text) env courses
           freshTs).cache ("coordinates_" ++ course_id) =
         some { value := .jsonStr (some body), inserted_at := freshTs } ∧
       (get_course_coordinates course_id
           (get_course_coordinates course_id cache tok (.resp 200 body text) env courses
             freshTs).cache tok2 up2 env2 courses2 freshTs2).fetched = false ∧
       (get_course_coordinates course_id
           (get_course_coordinates course_id cache tok (.resp 200 body text) env courses
             freshTs).cache tok2 up2 env2 courses2 freshTs2).response =
         .ok (extract_green_centers (some body))) ∧
    (∀ (course_id : String) (cache : Table InfoJson) (tok : Option String)
       (body : InfoPayload) (text : String) (env : EmailEnv) (courses : List Course)
       (freshTs : Nat) (tok2 : Option String) (up2 : UpstreamResult InfoPayload)
       (env2 : EmailEnv) (courses2 : List Course) (freshTs2 : Nat),
       cache ("info_" ++ course_id) = none →
       (get_course_info course_id cache tok (.resp 200 body text) env courses
           freshTs).cache ("info_" ++ course_id) =
         some { value := .jsonStr (some body), inserted_at := freshTs } ∧
       (get_course_info course_id
           (get_course_info course_id cache tok (.resp 200 body text) env courses
             freshTs).cache tok2 up2 env2 courses2 freshTs2).fetched = false ∧
       (get_course_info course_id
           (get_course_info course_id cache tok (.resp 200 body text) env courses
             freshTs).cache tok2 up2 env2 courses2 freshTs2).response =
         .ok (extract_pars (some body))) := by
  constructor
  · intro course_id cache tok body text env courses freshTs tok2 up2 env2 courses2 freshTs2
      hmiss htok
    have hkey : (get_course_coordinates course_id cache tok (.resp 200 body text) env courses
        freshTs).cache ("coordinates_" ++ course_id) =
        some { value := .jsonStr (some body), inserted_at := freshTs } := by
      simp [get_course_coordinates, hmiss, htok, upsertValueOnly]
    have h2 := coords_hit course_id _ tok2 up2 env2 courses2 freshTs2 _ (some body) hkey rfl
    refine ⟨hkey, ?_, ?_⟩ <;> rw [h2]
  · intro course_id cache tok body text env courses freshTs tok2 up2 env2 courses2 freshTs2
      hmiss
    have hkey : (get_course_info course_id cache tok (.resp 200 body text) env courses
        freshTs).cache ("info_" ++ course_id) =
        some { value := .jsonStr (some body), inserted_at := freshTs } := by
      simp [get_course_info, hmiss, upsertValueOnly]
    have h2 := info_hit course_id _ tok2 up2 env2 courses2 freshTs2 _ (some body) hkey rfl
    refine ⟨hkey, ?_, ?_⟩ <;> rw [h2]

/-- Witness for C1: a concrete populating run followed by a second run with a
failing upstream and no token. -/
theorem C1_resolve_idempotent_witness :
    (emptyCoordTable ("coordinates_" ++ "X1") = none ∧ truthyStr (some "t") = true ∧
      (get_course_coordinates "X1" emptyCoordTable (some "t") (.resp 200 c2payload "")
          {} [] 0).cache ("coordinates_" ++ "X1") =
        some { value := .jsonStr (some c2payload), inserted_at := 0 } ∧
      (get_course_coordinates "X1"
          (get_course_coordinates "X1" emptyCoordTable (some "t") (.resp 200 c2payload "")
            {} [] 0).cache none (.exn "down") {} [] 1).fetched = false ∧
      (get_course_coordinates "X1"
          (get_course_coordinates "X1" emptyCoordTable (some "t") (.resp 200 c2payload "")
            {} [] 0).cache none (.exn "down") {} [] 1).response =
        .ok (extract_green_centers (some c2payload))) ∧
    (emptyInfoTable ("info_" ++ "X1") = none ∧
      (get_course_info "X1" emptyInfoTable none (.resp 200 { parsMen := some [4] } "")
          {} [] 0).cache ("info_" ++ "X1") =
        some { value := .jsonStr (some { parsMen := some [4] }), inserted_at := 0 } ∧
      (get_course_info "X1"
          (get_course_info "X1" emptyInfoTable none (.resp 200 { parsMen := some [4] } "")
            {} [] 0).cache none (.exn "down") {} [] 1).fetched = false ∧
      (get_course_info "X1"
          (get_course_info "X1" emptyInfoTable none (.resp 200 { parsMen := some [4] } "")
            {} [] 0).cache none (.exn "down") {} [] 1).response =
        .ok (extract_pars (some { parsMen := some [4] }))) :=
  ⟨⟨rfl, rfl,
    C1_resolve_idempotent.1 "X1" emptyCoordTable (some "t") c2payload "" {} [] 0
      none (.exn "down") {} [] 1 rfl rfl⟩,
   ⟨rfl,
    C1_resolve_idempotent.2 "X1" emptyInfoTable none { parsMen := some [4] } "" {} [] 0
      none (.exn "down") {} [] 1 rfl⟩⟩

/-- C3: for each kind, on a cache miss with an upstream response whose status
is not 2xx, the handler returns the `apiFailed` response carrying the same
status code and the upstream response text, writes nothing to the cache, and
sends no notification. -/
theorem C3_upstream_error_propagated :
    (∀ (course_id : String) (cache : Table CoordJson) (tok : Option String) (s : Nat)
       (body : CoordPayload) (text : String) (env : EmailEnv) (courses : List Course)
       (freshTs : Nat),
       cache ("coordinates_" ++ course_id) = none →
       truthyStr tok = true →
       (s < 200 ∨ 300 ≤ s) →
       (get_course_coordinates course_id cache tok (.resp s body text) env courses
           freshTs).response = .apiFailed s text ∧
       ((get_course_coordinates course_id cache tok (.resp s body text) env courses
           freshTs).response).status = s ∧
       (get_course_coordinates course_id cache tok (.resp s body text) env courses
           freshTs).cache = cache ∧
       (get_course_coordinates course_id cache tok (.resp s body text) env courses
           freshTs).notified = false) ∧
    (∀ (course_id : String) (cache : Table InfoJson) (tok : Option String) (s : Nat)
       (body : InfoPayload) (text : String) (env : EmailEnv) (courses : List Course)
       (freshTs : Nat),
       cache ("info_" ++ course_id) = none →
       (s < 200 ∨ 300 ≤ s) →
       (get_course_info course_id cache tok (.resp s body text) env courses
           freshTs).response = .apiFailed s text ∧
       ((get_course_info course_id cache tok (.resp s body text) env courses
           freshTs).response).status = s ∧
       (get_course_info course_id cache tok (.resp s body text) env courses
           freshTs).cache = cache ∧
       (get_course_info course_id cache tok (.resp s body text) env courses
           freshTs).notified = false) := by
  constructor
  · intro course_id cache tok s body text env courses freshTs hmiss htok hs
    have hne : ¬ s = 200 := by omega
    simp [get_course_coordinates, hmiss, htok, hne, ApiResponse.status]
  · intro course_id cache tok s body text env courses freshTs hmiss hs
    have hne : ¬ s = 200 := by omega
    simp [get_course_info, hmiss, hne, ApiResponse.status]

/-- Witness for C3: the HTTP 429 rate-limit scenario of the spec. -/
theorem C3_upstream_error_propagated_witness :
    (emptyCoordTable ("coordinates_" ++ "X1") = none ∧ truthyStr (some "t") = true ∧
      ((429 : Nat) < 200 ∨ (300 : Nat) ≤ 429) ∧
      (get_course_coordinates "X1" emptyCoordTable (some "t")
          (.resp 429 {} "rate limited") {} [] 0).response = .apiFailed 429 "rate limited" ∧
      ((get_course_coordinates "X1" emptyCoordTable (some "t")
          (.resp 429 {} "rate limited") {} [] 0).response).status = 429 ∧
      (get_course_coordinates "X1" emptyCoordTable (some "t")
          (.resp 429 {} "rate limited") {} [] 0).notified = false) ∧
    ((get_course_info "X1" emptyInfoTable (some "t")
          (.resp 429 {} "rate limited") {} [] 0).response = .apiFailed 429 "rate limited") := by
  have h1 := C3_upstream_error_propagated.1 "X1" emptyCoordTable (some "t") 429 {}
    "rate limited" {} [] 0 rfl rfl (Or.inr (by decide))
  have h2 := C3_upstream_error_propagated.2 "X1" emptyInfoTable (some "t") 429 {}
    "rate limited" {} [] 0 rfl (Or.inr (by decide))
  exact ⟨⟨rfl, rfl, Or.inr (by decide), h1.1, h1.2.1, h1.2.2.2⟩, h2.1⟩

/-- C5: on a miss with no configured token the coordinates handler returns
the 500 configuration error without fetching, but the info handler has no
such guard and performs the upstream fetch anyway: the claim fails for kind
`info`. -/
theorem C5_missing_token_divergence :
    (∀ (course_id : String) (cache : Table CoordJson) (up : UpstreamResult CoordPayload)
       (env : EmailEnv) (courses : List Course) (freshTs : Nat),
       cache ("coordinates_" ++ course_id) = none →
       (get_course_coordinates course_id cache none up env courses freshTs).response =
           .tokenError ∧
       ((get_course_coordinates course_id cache none up env courses
           freshTs).response).status = 500 ∧
       (get_course_coordinates course_id cache none up env courses freshTs).fetched =
           false) ∧
    (∀ (course_id : String) (cache : Table InfoJson) (up : UpstreamResult InfoPayload)
       (env : EmailEnv) (courses : List Course) (freshTs : Nat),
       cache ("info_" ++ course_id) = none →
       (get_course_info course_id cache none up env courses freshTs).fetched = true) := by
  constructor
  · intro course_id cache up env courses freshTs hmiss
    simp [get_course_coordinates, hmiss, truthyStr, ApiResponse.status]
  · intro course_id cache up env courses freshTs hmiss
    cases up with
    | resp s body text =>
      by_cases hs : s = 200 <;> simp [get_course_info, hmiss, hs]
    | exn msg => simp [get_course_info, hmiss]

/-- Witness for C5: empty caches, unset token, upstream answering 401. -/
theorem C5_missing_token_divergence_witness :
    (emptyCoordTable ("coordinates_" ++ "X1") = none ∧
      (get_course_coordinates "X1" emptyCoordTable none (.resp 401 {} "denied")
          {} [] 0).response = .tokenError ∧
      (get_course_coordinates "X1" emptyCoordTable none (.resp 401 {} "denied")
          {} [] 0).fetched = false) ∧
    (emptyInfoTable ("info_" ++ "X1") = none ∧
      (get_course_info "X1" emptyInfoTable none (.resp 401 {} "denied")
          {} [] 0).fetched = true) := by
  have h1 := C5_missing_token_divergence.1 "X1" emptyCoordTable (.resp 401 {} "denied")
    {} [] 0 rfl
  have h2 := C5_missing_token_divergence.2 "X1" emptyInfoTable (.resp 401 {} "denied")
    {} [] 0 rfl
  exact ⟨⟨rfl, h1.1, h1.2.2⟩, ⟨rfl, h2⟩⟩

def c6row : CacheRow CoordJson := { value := .jsonStr none, inserted_at := 5 }

def c6table : Table CoordJson :=
  fun k => if k = "coordinates_c1" then some c6row else none

/-- Counterexample for C6: executing the resolver write statement at time 9
over a key whose row was inserted at time 5 overwrites the value but leaves
`inserted_at` at 5 — the timestamp is not set on this overwrite. -/
theorem C6_timestamp_counterexample :
    upsertValueOnly c6table "coordinates_c1" (.jsonStr (some {})) 9 "coordinates_c1" =
      some { value := .jsonStr (some {}), inserted_at := 5 } ∧
    (5 : Nat) ≠ 9 := by
  refine ⟨?_, by decide⟩
  simp [upsertValueOnly, c6table, c6row]

/-- C6 amended: only the `/cache` POST endpoint statement sets `inserted_at`
on an overwrite; the write statement the resolvers run on a cache miss
updates only `value` on conflict and keeps the existing `inserted_at`, and
the cache table a miss-path resolve produces is exactly that statement
applied to the serialized payload. -/
theorem C6_upsert_amended :
    (∀ (α : Type) (t : Table α) (key : String) (v : CacheVal α) (now freshTs : Nat)
       (row : CacheRow α), t key = some row →
       upsertTouch t key v now freshTs key = some { value := v, inserted_at := now }) ∧
    (∀ (α : Type) (t : Table α) (key : String) (v : CacheVal α) (freshTs : Nat)
       (row : CacheRow α), t key = some row →
       upsertValueOnly t key v freshTs key =
         some { value := v, inserted_at := row.inserted_at }) ∧
    (∀ (α : Type) (t : Table α) (key : String) (value : CacheVal α) (now freshTs : Nat),
       (store_cached_course_poi t (some (key, value)) now freshTs).2 =
         upsertTouch t key (serializeForStore value) now freshTs) ∧
    (∀ (course_id : String) (cache : Table CoordJson) (tok : Option String)
       (body : CoordPayload) (text : String) (env : EmailEnv) (courses : List Course)
       (freshTs : Nat),
       cache ("coordinates_" ++ course_id) = none → truthyStr tok = true →
       (get_course_coordinates course_id cache tok (.resp 200 body text) env courses
           freshTs).cache =
         upsertValueOnly cache ("coordinates_" ++ course_id) (.jsonStr (some body))
           freshTs) := by
  refine ⟨?_, ?_, ?_, ?_⟩
  · intro α t key v now freshTs row hrow
    simp [upsertTouch, hrow]
  · intro α t key v freshTs row hrow
    simp [upsertValueOnly, hrow]
  · intro α t key value now freshTs
    rfl
  · intro course_id cache tok body text env courses freshTs hmiss htok
    simp [get_course_coordinates, hmiss, htok]

/-- Witness for the amended C6 at a concrete one-row table. -/
theorem C6_upsert_amended_witness :
    c6table "coordinates_c1" = some c6row ∧
    upsertTouch c6table "coordinates_c1" (.jsonStr (some {})) 9 3 "coordinates_c1" =
      some { value := .jsonStr (some {}), inserted_at := 9 } ∧
    upsertValueOnly c6table "coordinates_c1" (.jsonStr (some {})) 3 "coordinates_c1" =
      some { value := .jsonStr (some {}), inserted_at := c6row.inserted_at } ∧
    (get_course_coordinates "X1" emptyCoordTable (some "t") (.resp 200 {} "") {} []
        4).cache =
      upsertValueOnly emptyCoordTable ("coordinates_" ++ "X1") (.jsonStr (some {})) 4 :=
  ⟨rfl,
   C6_upsert_amended.1 CoordJson c6table "coordinates_c1" (.jsonStr (some {})) 9 3 c6row rfl,
   C6_upsert_amended.2.1 CoordJson c6table "coordinates_c1" (.jsonStr (some {})) 3 c6row rfl,
   C6_upsert_amended.2.2.2 "X1" emptyCoordTable (some "t") {} "" {} [] 4 rfl rfl⟩

/-- C8: the notifier returns `False` instead of raising, both on missing mail
configuration and on a transport failure, and no component of the handler
outcome other than the recorded e-mail result depends on the mail
environment, so the client-visible response equals the one of a successful
notification. -/
theorem C8_notification_isolated :
    (∀ (δ : Type) (env : EmailEnv) (a b : String) (d : δ) (ty : String)
       (q : Option String),
       emailConfigOk env = false ∨ env.smtpFails = true →
       send_course_email env a b d ty q = false) ∧
    (∀ (course_id : String) (cache : Table CoordJson) (tok : Option String)
       (up : UpstreamResult CoordPayload) (env1 env2 : EmailEnv) (courses : List Course)
       (freshTs : Nat),
       (get_course_coordinates course_id cache tok up env1 courses freshTs).response =
         (get_course_coordinates course_id cache tok up env2 courses freshTs).response ∧
       (get_course_coordinates course_id cache tok up env1 courses freshTs).cache =
         (get_course_coordinates course_id cache tok up env2 courses freshTs).cache ∧
       (get_course_coordinates course_id cache tok up env1 courses freshTs).fetched =
         (get_course_coordinates course_id cache tok up env2 courses freshTs).fetched ∧
       (get_course_coordinates course_id cache tok up env1 courses freshTs).notified =
         (get_course_coordinates course_id cache tok up env2 courses freshTs).notified) ∧
    (∀ (course_id : String) (cache : Table InfoJson) (tok : Option String)
       (up : UpstreamResult InfoPayload) (env1 env2 : EmailEnv) (courses : List Course)
       (freshTs : Nat),
       (get_course_info course_id cache tok up env1 courses freshTs).response =
         (get_course_info course_id cache tok up env2 courses freshTs).response ∧
       (get_course_info course_id cache tok up env1 courses freshTs).cache =
         (get_course_info course_id cache tok up env2 courses freshTs).cache ∧
       (get_course_info course_id cache tok up env1 courses freshTs).fetched =
         (get_course_info course_id cache tok up env2 courses freshTs).fetched ∧
       (get_course_info course_id cache tok up env1 courses freshTs).notified =
         (get_course_info course_id cache tok up env2 courses freshTs).notified) := by
  refine ⟨?_, ?_, ?_⟩
  · intro δ env a b d ty q h
    rcases h with h | h <;> simp [send_course_email, h]
  · intro course_id cache tok up env1 env2 courses freshTs
    cases hrow : cache ("coordinates_" ++ course_id) with
    | some row =>
      cases hdec : decodeVal row.value <;>
        simp [get_course_coordinates, hrow, hdec]
    | none =>
      by_cases htok : truthyStr tok = true
      · cases up with
        | resp s body text =>
          by_cases hs : s = 200 <;> simp [get_course_coordinates, hrow, htok, hs]
        | exn msg => simp [get_course_coordinates, hrow, htok]
      · rw [Bool.not_eq_true] at htok
        simp [get_course_coordinates, hrow, htok]
  · intro course_id cache tok up env1 env2 courses freshTs
    cases hrow : cache ("info_" ++ course_id) with
    | some row =>
      cases hdec : decodeVal row.value <;>
        simp [get_course_info, hrow, hdec]
    | none =>
      cases up with
      | resp s body text =>
        by_cases hs : s = 200 <;> simp [get_course_info, hrow, hs]
      | exn msg => simp [get_course_info, hrow]

def c8env : EmailEnv :=
  { gmail_user := some "u", gmail_password := some "p", recipient_email := some "r",
    smtpFails := true }

/-- Witness for C8: missing configuration and a failing SMTP transport both
yield `False`, and a concrete populating run keeps the same response under a
different mail environment. -/
theorem C8_notification_isolated_witness :
    (emailConfigOk {} = false ∨ ({} : EmailEnv).smtpFails = true) ∧
    send_course_email {} "c1" "name" (0 : Nat) "POI" none = false ∧
    send_course_email c8env "c1" "name" (0 : Nat) "POI" none = false ∧
    (get_course_coordinates "X1" emptyCoordTable (some "t") (.resp 200 {} "") {} []
        0).response =
      (get_course_coordinates "X1" emptyCoordTable (some "t") (.resp 200 {} "")
        c8env [] 0).response :=
  ⟨Or.inl rfl,
   C8_notification_isolated.1 Nat {} "c1" "name" 0 "POI" none (Or.inl rfl),
   C8_notification_isolated.1 Nat c8env "c1" "name" 0 "POI" none (Or.inr rfl),
   (C8_notification_isolated.2.1 "X1" emptyCoordTable (some "t") (.resp 200 {} "") {}
     c8env [] 0).1⟩

/-- C10: on a cache hit with a well-formed row the handlers return the
normalization of the decoded cached document, and the whole outcome is
unchanged when only the configured token differs between two runs. -/
theorem C10_hit_independent_of_token :
    (∀ (course_id : String) (cache : Table CoordJson) (row : CacheRow CoordJson)
       (j : CoordJson) (tok tok2 : Option String) (up : UpstreamResult CoordPayload)
       (env : EmailEnv) (courses : List Course) (freshTs : Nat),
       cache ("coordinates_" ++ course_id) = some row →
       decodeVal row.value = some j →
       (get_course_coordinates course_id cache tok up env courses freshTs).response =
         .ok (extract_green_centers j) ∧
       get_course_coordinates course_id cache tok up env courses freshTs =
         get_course_coordinates course_id cache tok2 up env courses freshTs) ∧
    (∀ (course_id : String) (cache : Table InfoJson) (row : CacheRow InfoJson)
       (j : InfoJson) (tok tok2 : Option String) (up : UpstreamResult InfoPayload)
       (env : EmailEnv) (courses : List Course) (freshTs : Nat),
       cache ("info_" ++ course_id) = some row →
       decodeVal row.value = some j →
       (get_course_info course_id cache tok up env courses freshTs).response =
         .ok (extract_pars j) ∧
       get_course_info course_id cache tok up env courses freshTs =
         get_course_info course_id cache tok2 up env courses freshTs) := by
  constructor
  · intro course_id cache row j tok tok2 up env courses freshTs hrow hdec
    rw [coords_hit course_id cache tok up env courses freshTs row j hrow hdec,
      coords_hit course_id cache tok2 up env courses freshTs row j hrow hdec]
    exact ⟨rfl, rfl⟩
  · intro course_id cache row j tok tok2 up env courses freshTs hrow hdec
    rw [info_hit course_id cache tok up env courses freshTs row j hrow hdec,
      info_hit course_id cache tok2 up env courses freshTs row j hrow hdec]
    exact ⟨rfl, rfl⟩

def c10row : CacheRow CoordJson := { value := .structured (some c2payload), inserted_at := 7 }

def c10table : Table CoordJson :=
  fun k => if k = "coordinates_X1" then some c10row else none

def c10rowI : CacheRow InfoJson :=
  { value := .jsonStr (some { parsMen := some [4] }), inserted_at := 7 }

def c10tableI : Table InfoJson :=
  fun k => if k = "info_X1" then some c10rowI else none

/-- Witness for C10 at concrete one-row tables, with and without a token. -/
theorem C10_hit_independent_of_token_witness :
    (c10table ("coordinates_" ++ "X1") = some c10row ∧
      decodeVal c10row.value = some (some c2payload) ∧
      (get_course_coordinates "X1" c10table none (.exn "down") {} [] 0).response =
        .ok (extract_green_centers (some c2payload)) ∧
      get_course_coordinates "X1" c10table none (.exn "down") {} [] 0 =
        get_course_coordinates "X1" c10table (some "tok") (.exn "down") {} [] 0) ∧
    (c10tableI ("info_" ++ "X1") = some c10rowI ∧
      (get_course_info "X1" c10tableI none (.exn "down") {} [] 0).response =
        .ok (extract_pars (some { parsMen := some [4] })) ∧
      get_course_info "X1" c10tableI none (.exn "down") {} [] 0 =
        get_course_info "X1" c10tableI (some "tok") (.exn "down") {} [] 0) :=
  ⟨⟨rfl, rfl,
    (C10_hit_independent_of_token.1 "X1" c10table c10row (some c2payload) none
      (some "tok") (.exn "down") {} [] 0 rfl rfl).1,
    (C10_hit_independent_of_token.1 "X1" c10table c10row (some c2payload) none
      (some "tok") (.exn "down") {} [] 0 rfl rfl).2⟩,
   ⟨rfl,
    (C10_hit_independent_of_token.2 "X1" c10tableI c10rowI
      (some { parsMen := some [4] }) none (some "tok") (.exn "down") {} [] 0 rfl rfl).1,
    (C10_hit_independent_of_token.2 "X1" c10tableI c10rowI
      (some { parsMen := some [4] }) none (some "tok") (.exn "down") {} [] 0 rfl rfl).2⟩⟩
